import Mathlib

/-!
Verification of the image transform-and-encode pipeline of the
Image-Auto-Rotation-Fixer repository (`ImageProcessor` in the core module).

The shallow embedding below translates the geometry computation, the
MIME-type resolution, the size-constrained encode phase and the EXIF
orientation read race from the source. Machine floating point is modelled
by exact rational arithmetic; JavaScript `Math.round` is modelled by
`jround` (floor of x + 1/2, JavaScript round-half-up semantics);
JavaScript truthiness of possibly-null numbers is modelled by `otruthy`
and `ntruthy`.
-/

/-- JavaScript `Math.round`: round half toward positive infinity. -/
def jround (x : ℚ) : ℤ := Int.floor (x + 1/2)

/-- The five resize modes of the source (`resizeMode` string values
`none`, `width`, `height`, `both-fit`, `both-force`). -/
inductive ResizeMode where
  | none
  | width
  | height
  | bothFit
  | bothForce
deriving DecidableEq

/-- The three export formats of the source (`exportFormat` string values
`auto`, `png`, `jpeg`). -/
inductive Fmt where
  | auto
  | png
  | jpeg
deriving DecidableEq

/-- JavaScript truthiness of a possibly-null integer (`targetWidth`,
`targetHeight`): null and 0 are falsy, every other number truthy. -/
def otruthy : Option ℤ → Bool
  | Option.none => false
  | Option.some v => decide (v ≠ 0)

/-- JavaScript truthiness of the possibly-null byte ceiling
(`options.maxSizeBytes`). -/
def ntruthy : Option ℕ → Bool
  | Option.none => false
  | Option.some n => decide (n ≠ 0)

/-- Upright dimensions, from the source: swap source width/height when
`orientation >= 5 && orientation <= 8`, then swap again when
`manualRotation === 90 || manualRotation === 270`. -/
def uprightDims (imgW imgH orientation manualRotation : ℤ) : ℤ × ℤ :=
  let w : ℤ := if 5 ≤ orientation ∧ orientation ≤ 8 then imgH else imgW
  let h : ℤ := if 5 ≤ orientation ∧ orientation ≤ 8 then imgW else imgH
  if manualRotation = 90 ∨ manualRotation = 270 then (h, w) else (w, h)

/-- The EXIF rotation in degrees, from the source `switch (orientation)`:
case 3 gives 180, case 6 gives 90, case 8 gives 270, all other values
(including the mirrored codes 2, 4, 5, 7 and out-of-range values) give 0. -/
def exifDeg (orientation : ℤ) : ℤ :=
  if orientation = 3 then 180
  else if orientation = 6 then 90
  else if orientation = 8 then 270
  else 0

/-- Result of the geometry portion of `ImageProcessor.process`: the final
canvas dimensions and the total clockwise rotation in degrees. -/
structure Geom where
  finalW : ℤ
  finalH : ℤ
  totalDeg : ℤ
deriving DecidableEq

/-- The geometry computation of `ImageProcessor.process`: upright
dimensions, then the resize-mode if/else chain (each branch guarded by the
mode string and the truthiness of its target(s)), then `Math.round` on
both dimensions, and `totalDeg = (exifDeg + manualRotation) % 360`. -/
def computeGeometry (imgW imgH orientation manualRotation : ℤ)
    (mode : ResizeMode) (tw th : Option ℤ) : Geom :=
  let u := uprightDims imgW imgH orientation manualRotation
  let uprightW := u.1
  let uprightH := u.2
  let q : ℚ × ℚ :=
    if mode = ResizeMode.width ∧ otruthy tw = true then
      ((tw.getD 0 : ℚ), ((uprightH : ℚ) / (uprightW : ℚ)) * (tw.getD 0 : ℚ))
    else if mode = ResizeMode.height ∧ otruthy th = true then
      (((uprightW : ℚ) / (uprightH : ℚ)) * (th.getD 0 : ℚ), (th.getD 0 : ℚ))
    else if mode = ResizeMode.bothFit ∧ otruthy tw = true ∧ otruthy th = true then
      let ratio : ℚ :=
        min ((tw.getD 0 : ℚ) / (uprightW : ℚ)) ((th.getD 0 : ℚ) / (uprightH : ℚ))
      ((uprightW : ℚ) * ratio, (uprightH : ℚ) * ratio)
    else if mode = ResizeMode.bothForce ∧ otruthy tw = true ∧ otruthy th = true then
      ((tw.getD 0 : ℚ), (th.getD 0 : ℚ))
    else
      ((uprightW : ℚ), (uprightH : ℚ))
  { finalW := jround q.1
    finalH := jround q.2
    totalDeg := (exifDeg orientation + manualRotation) % 360 }

/-- MIME resolution of the source, as the predicate: is the resolved type PNG.
explicit `png`/`jpeg` win; `auto` forces JPEG when a byte ceiling is set,
else keeps PNG sources as PNG and everything else as JPEG. -/
def resolveMimeIsPng (fmt : Fmt) (ceilingTruthy : Bool) (fileIsPng : Bool) : Bool :=
  match fmt with
  | Fmt.png => true
  | Fmt.jpeg => false
  | Fmt.auto => if ceilingTruthy then false else fileIsPng

/-- State of the quality binary search of the source: the bounds `minQ`
and `maxQ`, the best blob recorded so far (identified by the quality it
was encoded at, the encoder being deterministic), and the trace of
qualities probed so far. -/
structure SearchState where
  minQ : ℚ
  maxQ : ℚ
  best : Option ℚ
  calls : List ℚ
deriving DecidableEq

/-- One iteration of the source's `while (attempts < 10)` loop: probe the
midpoint quality; if the blob fits the ceiling, record it as best and
raise the lower bound, else lower the upper bound. -/
def searchStep (sizeOf : ℚ → ℕ) (ceiling : ℕ) (s : SearchState) : SearchState :=
  let midQ := (s.minQ + s.maxQ) / 2
  if sizeOf midQ ≤ ceiling then
    { minQ := midQ, maxQ := s.maxQ, best := Option.some midQ, calls := s.calls ++ [midQ] }
  else
    { minQ := s.minQ, maxQ := midQ, best := s.best, calls := s.calls ++ [midQ] }

/-- The source's search loop, run for a fixed number of iterations. -/
def searchLoop (sizeOf : ℚ → ℕ) (ceiling : ℕ) : ℕ → SearchState → SearchState
  | 0, s => s
  | Nat.succ n, s => searchLoop sizeOf ceiling n (searchStep sizeOf ceiling s)

/-- The initial search state of the source: `minQ = 0.01`, `maxQ = 1.0`,
no best blob, no probes yet. -/
def searchInit : SearchState :=
  { minQ := 1/100, maxQ := 1, best := Option.none, calls := [] }

/-- The encode phase of `ImageProcessor.process`, lines 461-511 of the
core module. The deterministic encoder is abstracted as `sizeOf`, the
byte size of the canvas encoded at a given quality; the result is the
trace of encode calls (the qualities passed to `getBlob`, in order)
paired with the quality of the blob that is resolved. Mirrors the source:
no truthy ceiling or PNG means a single encode at quality 0.95; otherwise
probe quality 1.0 and return it when it fits; otherwise run the
10-iteration binary search from bounds [0.01, 1.0] and return the best
recorded blob, falling back to a quality-0.01 encode when none fit. -/
def encodePhase (maxSizeBytes : Option ℕ) (isPng : Bool) (sizeOf : ℚ → ℕ) :
    List ℚ × ℚ :=
  if ntruthy maxSizeBytes = false ∨ isPng = true then
    ([95/100], 95/100)
  else
    let ceiling := maxSizeBytes.getD 0
    if sizeOf 1 ≤ ceiling then
      ([1], 1)
    else
      let s := searchLoop sizeOf ceiling 10 searchInit
      match s.best with
      | Option.some q => (1 :: s.calls, q)
      | Option.none => (1 :: (s.calls ++ [1/100]), 1/100)

/-- The options record passed to `ImageProcessor.process`. -/
structure ProcOptions where
  orientation : ℤ
  manualRotation : ℤ
  resizeMode : ResizeMode
  targetWidth : Option ℤ
  targetHeight : Option ℤ
  maxSizeBytes : Option ℕ
  exportFormat : Fmt
deriving DecidableEq

/-- Replace the orientation field of an options record. -/
def setOrientation (o : ℤ) (p : ProcOptions) : ProcOptions :=
  { orientation := o
    manualRotation := p.manualRotation
    resizeMode := p.resizeMode
    targetWidth := p.targetWidth
    targetHeight := p.targetHeight
    maxSizeBytes := p.maxSizeBytes
    exportFormat := p.exportFormat }

/-- Replace the resize mode field of an options record. -/
def setResizeMode (m : ResizeMode) (p : ProcOptions) : ProcOptions :=
  { orientation := p.orientation
    manualRotation := p.manualRotation
    resizeMode := m
    targetWidth := p.targetWidth
    targetHeight := p.targetHeight
    maxSizeBytes := p.maxSizeBytes
    exportFormat := p.exportFormat }

/-- The observable result of one `ImageProcessor.process` call: final
canvas dimensions, total rotation, the X/Y context scale factors, the
resolved format, and the encode trace and resolved blob quality. -/
structure ProcResult where
  finalW : ℤ
  finalH : ℤ
  totalDeg : ℤ
  scaleX : ℚ
  scaleY : ℚ
  isPng : Bool
  encodeCalls : List ℚ
  resultQuality : ℚ
deriving DecidableEq

/-- The full `ImageProcessor.process` pipeline on a decoded image of
dimensions `imgW` by `imgH`: MIME resolution, geometry, the context scale
factors (swapped axes when the total rotation is 90 or 270), and the
encode phase. -/
def process (imgW imgH : ℤ) (fileIsPng : Bool) (o : ProcOptions)
    (sizeOf : ℚ → ℕ) : ProcResult :=
  let isPng := resolveMimeIsPng o.exportFormat (ntruthy o.maxSizeBytes) fileIsPng
  let g := computeGeometry imgW imgH o.orientation o.manualRotation
    o.resizeMode o.targetWidth o.targetHeight
  let s : ℚ × ℚ :=
    if g.totalDeg = 90 ∨ g.totalDeg = 270 then
      ((g.finalH : ℚ) / (imgW : ℚ), (g.finalW : ℚ) / (imgH : ℚ))
    else
      ((g.finalW : ℚ) / (imgW : ℚ), (g.finalH : ℚ) / (imgH : ℚ))
  let e := encodePhase o.maxSizeBytes isPng sizeOf
  { finalW := g.finalW
    finalH := g.finalH
    totalDeg := g.totalDeg
    scaleX := s.1
    scaleY := s.2
    isPng := isPng
    encodeCalls := e.1
    resultQuality := e.2 }

/-- The events that can complete the EXIF orientation read of
`ImageProcessor.getOrientation`: the metadata callback firing with an
optional tag value, the parser throwing synchronously, or the timeout
firing. -/
inductive ExifEvent where
  | parsed (tag : Option ℕ)
  | threw
  | timeout
deriving DecidableEq

/-- The value each completion passes to `safeResolve` in the source: the
callback resolves `result || 1` (so a missing or zero tag becomes 1), the
catch branch and the timeout both resolve 1. -/
def callbackValue : ExifEvent → ℕ
  | ExifEvent.parsed (Option.some t) => if t = 0 then 1 else t
  | ExifEvent.parsed Option.none => 1
  | ExifEvent.threw => 1
  | ExifEvent.timeout => 1

/-- State of the single-resolution race in `getOrientation`: the
`accepted` flag and the value the promise resolved with, if any. -/
structure RaceState where
  accepted : Bool
  result : Option ℕ
deriving DecidableEq

/-- The source's `safeResolve`: resolve only when not yet accepted. -/
def safeResolve (v : ℕ) (s : RaceState) : RaceState :=
  if s.accepted = true then s else { accepted := true, result := Option.some v }

/-- Run `getOrientation`'s race over a sequence of completion events in
the order they fire. -/
def runEvents (events : List ExifEvent) : RaceState :=
  events.foldl (fun s e => safeResolve (callbackValue e) s)
    { accepted := false, result := Option.none }

/-- The timeout of `getOrientation`, in milliseconds (source: `setTimeout(..., 1500)`). -/
def exifTimeoutMs : ℕ := 1500

/-- The options of the C5 counterexample call: resize mode width with a
null target width, no ceiling, automatic format. -/
def widthNullOpts : ProcOptions :=
  { orientation := 1, manualRotation := 0, resizeMode := ResizeMode.width,
    targetWidth := Option.none, targetHeight := Option.none,
    maxSizeBytes := Option.none, exportFormat := Fmt.auto }

/-! ## Basic lemmas about rounding and the geometry computation -/

/-- Rounding an integer gives it back. -/
theorem jround_intCast (n : ℤ) : jround ((n : ℤ) : ℚ) = n := by
  unfold jround
  rw [add_comm, Int.floor_add_int]
  norm_num

/-- JavaScript rounding is monotone. -/
theorem jround_mono {x y : ℚ} (h : x ≤ y) : jround x ≤ jround y :=
  Int.floor_le_floor (by linarith)

/-- Upright dimensions of a positive-dimension image are positive. -/
theorem uprightDims_pos (imgW imgH o m : ℤ) (hW : 0 < imgW) (hH : 0 < imgH) :
    0 < (uprightDims imgW imgH o m).1 ∧ 0 < (uprightDims imgW imgH o m).2 := by
  by_cases h5 : 5 ≤ o ∧ o ≤ 8 <;> by_cases hm : m = 90 ∨ m = 270 <;>
    simp [uprightDims, h5, hm] <;> exact ⟨by assumption, by assumption⟩

/-! ## Claims about the geometry computation -/

/-- C1 (amended): for orientation codes 1, 2, 3, 4, 6, 8 (the codes whose
orientation-rotation is 0, 0, 180, 0, 90, 270 respectively) and every
manual rotation in 0, 90, 180, 270, with resize mode none, the total
rotation computed by process equals (orientation rotation + manual
rotation) mod 360, and the output dimensions are the source dimensions
swapped exactly when that net rotation is 90 or 270. -/
theorem net_rotation_dim_swap (w h o m : ℤ)
    (ho : o = 1 ∨ o = 2 ∨ o = 3 ∨ o = 4 ∨ o = 6 ∨ o = 8)
    (hm : m = 0 ∨ m = 90 ∨ m = 180 ∨ m = 270) :
    (computeGeometry w h o m ResizeMode.none Option.none Option.none).totalDeg
        = (exifDeg o + m) % 360 ∧
    (computeGeometry w h o m ResizeMode.none Option.none Option.none).finalW
        = (if (exifDeg o + m) % 360 = 90 ∨ (exifDeg o + m) % 360 = 270 then h else w) ∧
    (computeGeometry w h o m ResizeMode.none Option.none Option.none).finalH
        = (if (exifDeg o + m) % 360 = 90 ∨ (exifDeg o + m) % 360 = 270 then w else h) := by
  rcases ho with rfl | rfl | rfl | rfl | rfl | rfl <;>
    rcases hm with rfl | rfl | rfl | rfl <;>
      refine ⟨rfl, ?_, ?_⟩ <;>
        norm_num [computeGeometry, uprightDims, exifDeg, otruthy, jround_intCast]

/-- C1 (counterexample): at orientation code 5 with manual rotation 0 the
net rotation is 0 (code 5 maps to rotation 0), yet a 4000 by 3000 source
comes out as 3000 by 4000 — the dimensions are swapped although the net
rotation is neither 90 nor 270, refuting the claim for codes 5 and 7. -/
theorem orientation5_swaps_without_rotation :
    (computeGeometry 4000 3000 5 0 ResizeMode.none Option.none Option.none).totalDeg
        = (exifDeg 5 + 0) % 360 ∧
    (exifDeg 5 + 0) % 360 = 0 ∧
    (computeGeometry 4000 3000 5 0 ResizeMode.none Option.none Option.none).finalW = 3000 ∧
    (computeGeometry 4000 3000 5 0 ResizeMode.none Option.none Option.none).finalH = 4000 ∧
    ¬((computeGeometry 4000 3000 5 0 ResizeMode.none Option.none Option.none).finalW = 4000 ∧
      (computeGeometry 4000 3000 5 0 ResizeMode.none Option.none Option.none).finalH = 3000) := by
  refine ⟨?_, by decide, ?_, ?_, ?_⟩ <;>
    norm_num [computeGeometry, uprightDims, exifDeg, otruthy, jround, Int.floor_eq_iff]

/-- C1 (witness): the amended claim applied at orientation 6, manual
rotation 90, source 4000 by 3000: net rotation 180, dimensions unswapped. -/
theorem net_rotation_dim_swap_witness :
    ((6 : ℤ) = 1 ∨ (6 : ℤ) = 2 ∨ (6 : ℤ) = 3 ∨ (6 : ℤ) = 4 ∨ (6 : ℤ) = 6 ∨ (6 : ℤ) = 8) ∧
    ((90 : ℤ) = 0 ∨ (90 : ℤ) = 90 ∨ (90 : ℤ) = 180 ∨ (90 : ℤ) = 270) ∧
    ((computeGeometry 4000 3000 6 90 ResizeMode.none Option.none Option.none).totalDeg
        = (exifDeg 6 + 90) % 360 ∧
    (computeGeometry 4000 3000 6 90 ResizeMode.none Option.none Option.none).finalW
        = (if (exifDeg 6 + 90) % 360 = 90 ∨ (exifDeg 6 + 90) % 360 = 270 then (3000 : ℤ) else 4000) ∧
    (computeGeometry 4000 3000 6 90 ResizeMode.none Option.none Option.none).finalH
        = (if (exifDeg 6 + 90) % 360 = 90 ∨ (exifDeg 6 + 90) % 360 = 270 then (4000 : ℤ) else 3000)) :=
  ⟨by decide, by decide, net_rotation_dim_swap 4000 3000 6 90 (by decide) (by decide)⟩

/-- C2 (counterexample): processing a 4000 by 3000 source with
orientation code 6, manual rotation 0 and fit-width target 800 yields
final dimensions 800 by 1067, not the 800 by 600 the claim derives: the
code's pre-resize dimensions are (3000, 4000) (the orientation swap is
not swapped back by the net rotation), so the height is
round(4000 * 800 / 3000) = 1067. -/
theorem fitWidth_example_not_800x600 :
    computeGeometry 4000 3000 6 0 ResizeMode.width (Option.some 800) Option.none
      = { finalW := 800, finalH := 1067, totalDeg := 90 } ∧ (1067 : ℤ) ≠ 600 := by
  refine ⟨?_, by decide⟩
  norm_num [computeGeometry, uprightDims, exifDeg, otruthy, jround, Int.floor_eq_iff,
    Geom.mk.injEq]

/-- C2 (amended): the 4000 by 3000 source with orientation code 6, manual
rotation 0 and fit-width target 800 produces output dimensions exactly
800 by 1067 with net rotation 90, for every source format and encoder. -/
theorem fitWidth_example_800x1067 (fp : Bool) (sizeOf : ℚ → ℕ) :
    (process 4000 3000 fp
        { orientation := 6, manualRotation := 0, resizeMode := ResizeMode.width,
          targetWidth := Option.some 800, targetHeight := Option.none,
          maxSizeBytes := Option.none, exportFormat := Fmt.auto } sizeOf).finalW = 800 ∧
    (process 4000 3000 fp
        { orientation := 6, manualRotation := 0, resizeMode := ResizeMode.width,
          targetWidth := Option.some 800, targetHeight := Option.none,
          maxSizeBytes := Option.none, exportFormat := Fmt.auto } sizeOf).finalH = 1067 ∧
    (process 4000 3000 fp
        { orientation := 6, manualRotation := 0, resizeMode := ResizeMode.width,
          targetWidth := Option.some 800, targetHeight := Option.none,
          maxSizeBytes := Option.none, exportFormat := Fmt.auto } sizeOf).totalDeg = 90 := by
  refine ⟨?_, ?_, ?_⟩ <;> simp only [process] <;>
    norm_num [computeGeometry, uprightDims, exifDeg, otruthy, jround, Int.floor_eq_iff]

/-- C2 (witness): the amended end-to-end dimensions at a concrete format
and encoder. -/
theorem fitWidth_example_800x1067_witness :
    (process 4000 3000 false
        { orientation := 6, manualRotation := 0, resizeMode := ResizeMode.width,
          targetWidth := Option.some 800, targetHeight := Option.none,
          maxSizeBytes := Option.none, exportFormat := Fmt.auto } (fun _ => 0)).finalW = 800 ∧
    (process 4000 3000 false
        { orientation := 6, manualRotation := 0, resizeMode := ResizeMode.width,
          targetWidth := Option.some 800, targetHeight := Option.none,
          maxSizeBytes := Option.none, exportFormat := Fmt.auto } (fun _ => 0)).finalH = 1067 ∧
    (process 4000 3000 false
        { orientation := 6, manualRotation := 0, resizeMode := ResizeMode.width,
          targetWidth := Option.some 800, targetHeight := Option.none,
          maxSizeBytes := Option.none, exportFormat := Fmt.auto } (fun _ => 0)).totalDeg = 90 :=
  fitWidth_example_800x1067 false (fun _ => 0)

/-- C3 (code evaluation at the failing input): a 3 by 1 source with
orientation 1, manual rotation 0 and fit-width target 1 — all positive
integers — produces final height round(1/3) = 0, a zero (non-positive)
output dimension, contradicting the positivity invariant. -/
theorem fitWidth_zero_height_at_3x1 :
    computeGeometry 3 1 1 0 ResizeMode.width (Option.some 1) Option.none
      = { finalW := 1, finalH := 0, totalDeg := 0 } ∧
    ¬(0 < (computeGeometry 3 1 1 0 ResizeMode.width (Option.some 1) Option.none).finalH) := by
  have h : computeGeometry 3 1 1 0 ResizeMode.width (Option.some 1) Option.none
      = { finalW := 1, finalH := 0, totalDeg := 0 } := by
    norm_num [computeGeometry, uprightDims, exifDeg, otruthy, jround, Int.floor_eq_iff,
      Geom.mk.injEq]
  exact ⟨h, by rw [h]; decide⟩

/-- C4: with positive source dimensions and positive integer targets, the
both-fit policy scales both upright dimensions by the single factor
min(tw / uprightW, th / uprightH), and the rounded final dimensions never
overflow the box: finalW is at most tw and finalH is at most th. -/
theorem fitBox_within_box (imgW imgH o m tw th : ℤ)
    (hW : 0 < imgW) (hH : 0 < imgH) (htw : 0 < tw) (hth : 0 < th) :
    (computeGeometry imgW imgH o m ResizeMode.bothFit (Option.some tw) (Option.some th)).finalW
        = jround (((uprightDims imgW imgH o m).1 : ℚ) *
            min ((tw : ℚ) / ((uprightDims imgW imgH o m).1 : ℚ))
                ((th : ℚ) / ((uprightDims imgW imgH o m).2 : ℚ))) ∧
    (computeGeometry imgW imgH o m ResizeMode.bothFit (Option.some tw) (Option.some th)).finalH
        = jround (((uprightDims imgW imgH o m).2 : ℚ) *
            min ((tw : ℚ) / ((uprightDims imgW imgH o m).1 : ℚ))
                ((th : ℚ) / ((uprightDims imgW imgH o m).2 : ℚ))) ∧
    (computeGeometry imgW imgH o m ResizeMode.bothFit (Option.some tw) (Option.some th)).finalW
        ≤ tw ∧
    (computeGeometry imgW imgH o m ResizeMode.bothFit (Option.some tw) (Option.some th)).finalH
        ≤ th := by
  obtain ⟨hu1, hu2⟩ := uprightDims_pos imgW imgH o m hW hH
  set u := uprightDims imgW imgH o m with hu
  have hq1 : (0 : ℚ) < (u.1 : ℚ) := by exact_mod_cast hu1
  have hq2 : (0 : ℚ) < (u.2 : ℚ) := by exact_mod_cast hu2
  have hbranch :
      computeGeometry imgW imgH o m ResizeMode.bothFit (Option.some tw) (Option.some th)
        = { finalW := jround ((u.1 : ℚ) * min ((tw : ℚ) / (u.1 : ℚ)) ((th : ℚ) / (u.2 : ℚ)))
            finalH := jround ((u.2 : ℚ) * min ((tw : ℚ) / (u.1 : ℚ)) ((th : ℚ) / (u.2 : ℚ)))
            totalDeg := (exifDeg o + m) % 360 } := by
    simp [computeGeometry, otruthy, htw.ne', hth.ne', ← hu]
  have hWle : jround ((u.1 : ℚ) * min ((tw : ℚ) / (u.1 : ℚ)) ((th : ℚ) / (u.2 : ℚ))) ≤ tw := by
    have hle : (u.1 : ℚ) * min ((tw : ℚ) / (u.1 : ℚ)) ((th : ℚ) / (u.2 : ℚ)) ≤ (tw : ℚ) := by
      calc (u.1 : ℚ) * min ((tw : ℚ) / (u.1 : ℚ)) ((th : ℚ) / (u.2 : ℚ))
          ≤ (u.1 : ℚ) * ((tw : ℚ) / (u.1 : ℚ)) :=
            mul_le_mul_of_nonneg_left (min_le_left _ _) hq1.le
        _ = (tw : ℚ) := by field_simp
    calc jround ((u.1 : ℚ) * min ((tw : ℚ) / (u.1 : ℚ)) ((th : ℚ) / (u.2 : ℚ)))
        ≤ jround ((tw : ℚ)) := jround_mono hle
      _ = tw := jround_intCast tw
  have hHle : jround ((u.2 : ℚ) * min ((tw : ℚ) / (u.1 : ℚ)) ((th : ℚ) / (u.2 : ℚ))) ≤ th := by
    have hle : (u.2 : ℚ) * min ((tw : ℚ) / (u.1 : ℚ)) ((th : ℚ) / (u.2 : ℚ)) ≤ (th : ℚ) := by
      calc (u.2 : ℚ) * min ((tw : ℚ) / (u.1 : ℚ)) ((th : ℚ) / (u.2 : ℚ))
          ≤ (u.2 : ℚ) * ((th : ℚ) / (u.2 : ℚ)) :=
            mul_le_mul_of_nonneg_left (min_le_right _ _) hq2.le
        _ = (th : ℚ) := by field_simp
    calc jround ((u.2 : ℚ) * min ((tw : ℚ) / (u.1 : ℚ)) ((th : ℚ) / (u.2 : ℚ)))
        ≤ jround ((th : ℚ)) := jround_mono hle
      _ = th := jround_intCast th
  rw [hbranch]
  exact ⟨rfl, rfl, hWle, hHle⟩

/-- C4 (witness): the both-fit bound applied at a 4000 by 3000 source,
orientation 1, manual rotation 0, box 800 by 500. -/
theorem fitBox_within_box_witness :
    (0 : ℤ) < 4000 ∧ (0 : ℤ) < 3000 ∧ (0 : ℤ) < 800 ∧ (0 : ℤ) < 500 ∧
    ((computeGeometry 4000 3000 1 0 ResizeMode.bothFit (Option.some 800) (Option.some 500)).finalW
        ≤ 800 ∧
     (computeGeometry 4000 3000 1 0 ResizeMode.bothFit (Option.some 800) (Option.some 500)).finalH
        ≤ 500) :=
  ⟨by decide, by decide, by decide, by decide,
    (fitBox_within_box 4000 3000 1 0 800 500
      (by decide) (by decide) (by decide) (by decide)).2.2⟩

/-! ## Claims about the size-constrained encode phase -/

/-- Every best candidate the search loop records met the ceiling. -/
theorem searchLoop_best_sound (sizeOf : ℚ → ℕ) (c : ℕ) :
    ∀ (n : ℕ) (s : SearchState),
      (∀ q, s.best = Option.some q → sizeOf q ≤ c) →
      ∀ q, (searchLoop sizeOf c n s).best = Option.some q → sizeOf q ≤ c := by
  intro n
  induction n with
  | zero => intro s hs q hq; rw [searchLoop] at hq; exact hs q hq
  | succ n ih =>
      intro s hs q hq
      rw [searchLoop] at hq
      refine ih (searchStep sizeOf c s) ?_ q hq
      intro q' hq'
      unfold searchStep at hq'
      by_cases hmid : sizeOf ((s.minQ + s.maxQ) / 2) ≤ c
      · simp only [hmid, if_pos] at hq'
        simp only [Option.some.injEq] at hq'
        subst hq'
        exact hmid
      · simp only [hmid, if_neg, if_false] at hq'
        exact hs q' hq'

/-- The search loop probes exactly one quality per iteration. -/
theorem searchLoop_calls_length (sizeOf : ℚ → ℕ) (c : ℕ) :
    ∀ (n : ℕ) (s : SearchState),
      (searchLoop sizeOf c n s).calls.length = s.calls.length + n := by
  intro n
  induction n with
  | zero => intro s; rw [searchLoop]; omega
  | succ n ih =>
      intro s
      rw [searchLoop, ih]
      unfold searchStep
      by_cases hmid : sizeOf ((s.minQ + s.maxQ) / 2) ≤ c <;>
        simp [hmid] <;> omega

/-- C6: with a truthy byte ceiling, JPEG output and a max-quality
encoding that exceeds the ceiling, the encoder probes exactly 10 midpoint
qualities in the binary search; every recorded best candidate met the
ceiling; if a best candidate was recorded the call trace is the
max-quality probe followed by the 10 search probes and the result is that
candidate (whose size meets the ceiling); if none was recorded, one extra
encode at quality 0.01 is made and returned as the successful result even
though its size may exceed the ceiling. -/
theorem sizeSearch_behavior (sizeOf : ℚ → ℕ) (c : ℕ) (hc : 0 < c) (h1 : c < sizeOf 1) :
    (searchLoop sizeOf c 10 searchInit).calls.length = 10 ∧
    (∀ q, (searchLoop sizeOf c 10 searchInit).best = Option.some q → sizeOf q ≤ c) ∧
    (∀ q, (searchLoop sizeOf c 10 searchInit).best = Option.some q →
        encodePhase (Option.some c) false sizeOf
          = (1 :: (searchLoop sizeOf c 10 searchInit).calls, q)) ∧
    ((searchLoop sizeOf c 10 searchInit).best = Option.none →
        encodePhase (Option.some c) false sizeOf
          = (1 :: ((searchLoop sizeOf c 10 searchInit).calls ++ [1/100]), 1/100)) := by
  have hnt : ntruthy (Option.some c) = true := by
    simp [ntruthy]
    omega
  have hfit : ¬(sizeOf 1 ≤ c) := Nat.not_le.mpr h1
  refine ⟨?_, ?_, ?_, ?_⟩
  · rw [searchLoop_calls_length]
    rfl
  · exact searchLoop_best_sound sizeOf c 10 _ (by intro q hq; cases hq)
  · intro q hq
    unfold encodePhase
    rw [hnt]
    simp only [Bool.true_eq_false, false_or, if_neg hfit, Option.getD_some, hq,
      Bool.false_eq_true, if_false]
  · intro hq
    unfold encodePhase
    rw [hnt]
    simp only [Bool.true_eq_false, false_or, if_neg hfit, Option.getD_some, hq,
      Bool.false_eq_true, if_false]

/-- C6 (witness): the search behavior applied to a concrete encoder whose
blobs have size 10 at qualities up to 0.5 and 100 above, with ceiling 50. -/
theorem sizeSearch_behavior_witness :
    0 < 50 ∧
    50 < (fun q : ℚ => if q ≤ 1/2 then 10 else 100) 1 ∧
    ((searchLoop (fun q : ℚ => if q ≤ 1/2 then 10 else 100) 50 10 searchInit).calls.length = 10 ∧
    (∀ q, (searchLoop (fun q : ℚ => if q ≤ 1/2 then 10 else 100) 50 10 searchInit).best
        = Option.some q → (fun q : ℚ => if q ≤ 1/2 then 10 else 100) q ≤ 50) ∧
    (∀ q, (searchLoop (fun q : ℚ => if q ≤ 1/2 then 10 else 100) 50 10 searchInit).best
        = Option.some q →
        encodePhase (Option.some 50) false (fun q : ℚ => if q ≤ 1/2 then 10 else 100)
          = (1 :: (searchLoop (fun q : ℚ => if q ≤ 1/2 then 10 else 100) 50 10 searchInit).calls,
             q)) ∧
    ((searchLoop (fun q : ℚ => if q ≤ 1/2 then 10 else 100) 50 10 searchInit).best
        = Option.none →
        encodePhase (Option.some 50) false (fun q : ℚ => if q ≤ 1/2 then 10 else 100)
          = (1 :: ((searchLoop (fun q : ℚ => if q ≤ 1/2 then 10 else 100) 50 10
              searchInit).calls ++ [1/100]), 1/100))) :=
  ⟨by decide, by norm_num,
    sizeSearch_behavior (fun q : ℚ => if q ≤ 1/2 then 10 else 100) 50 (by decide) (by norm_num)⟩

/-- C7: with a truthy byte ceiling and JPEG output, the encoder first
encodes at quality 1.0, and when that encoding's size is within the
ceiling it is returned at once — the call trace is exactly the single
max-quality encode, with no search iterations. -/
theorem maxQuality_fits_no_search (sizeOf : ℚ → ℕ) (c : ℕ) (hc : 0 < c)
    (h : sizeOf 1 ≤ c) :
    encodePhase (Option.some c) false sizeOf = ([1], 1) := by
  have hnt : ntruthy (Option.some c) = true := by
    simp [ntruthy]
    omega
  unfold encodePhase
  rw [hnt]
  simp [h]

/-- C7 (witness): a ceiling of 100 and an encoder always producing 10
bytes: the max-quality encoding is returned directly. -/
theorem maxQuality_fits_no_search_witness :
    0 < 100 ∧ (fun _ : ℚ => 10) 1 ≤ 100 ∧
    encodePhase (Option.some 100) false (fun _ : ℚ => 10) = ([1], 1) :=
  ⟨by decide, by decide, maxQuality_fits_no_search (fun _ : ℚ => 10) 100 (by decide) (by decide)⟩

/-- C8 (counterexample): with no size ceiling and JPEG output, the encoder
performs its single encode at quality 0.95, not at the maximum quality
1.0 the claim states (the source initializes `quality = 0.95` for this
path while its max-quality probe elsewhere uses `getBlob(1.0)`). -/
theorem noCeiling_encode_not_max_quality :
    encodePhase Option.none false (fun _ : ℚ => 0) = ([19/20], 19/20) ∧
    ((19 : ℚ)/20 ≠ 1) := by
  constructor
  · norm_num [encodePhase, ntruthy]
  · norm_num

/-- C8 (amended): whenever the size ceiling is absent (or zero, which the
source treats as absent), or the resolved output format is PNG, the
encoder performs exactly one encode, at quality 0.95, and returns that
encoding; no quality search is run. -/
theorem noCeiling_or_png_single_encode (m : Option ℕ) (p : Bool) (sizeOf : ℚ → ℕ)
    (h : ntruthy m = false ∨ p = true) :
    encodePhase m p sizeOf = ([19/20], 19/20) := by
  unfold encodePhase
  rw [if_pos h]
  norm_num

/-- C8 (witness): the amended claim applied with no ceiling and JPEG
output. -/
theorem noCeiling_or_png_single_encode_witness :
    (ntruthy Option.none = false ∨ false = true) ∧
    encodePhase Option.none false (fun _ : ℚ => 5) = ([19/20], 19/20) :=
  ⟨Or.inl rfl, noCeiling_or_png_single_encode Option.none false (fun _ : ℚ => 5) (Or.inl rfl)⟩

/-! ## Claims about missing resize targets and orientation pass-through -/

/-- When the active resize mode's required target(s) are falsy (null or
zero), every branch guard in the resize chain fails, so the geometry is
the same as with resize mode none. -/
theorem computeGeometry_falsy_target (imgW imgH o m : ℤ) (mode : ResizeMode)
    (tw th : Option ℤ)
    (h : (mode = ResizeMode.width ∧ otruthy tw = false)
       ∨ (mode = ResizeMode.height ∧ otruthy th = false)
       ∨ ((mode = ResizeMode.bothFit ∨ mode = ResizeMode.bothForce)
            ∧ (otruthy tw = false ∨ otruthy th = false))) :
    computeGeometry imgW imgH o m mode tw th
      = computeGeometry imgW imgH o m ResizeMode.none tw th := by
  rcases h with ⟨rfl, ht⟩ | ⟨rfl, ht⟩ | ⟨hm, ht⟩
  · simp [computeGeometry, ht]
  · simp [computeGeometry, ht]
  · rcases hm with rfl | rfl <;> rcases ht with ht | ht <;> simp [computeGeometry, ht]

/-- C5 (amended): when a resize policy other than none is active but its
required target dimension(s) are missing (null/NaN) or zero, process does
not fail: it silently behaves exactly as if the resize mode were none,
completing rendering and returning a successfully encoded result at the
upright dimensions. -/
theorem process_missing_target_silent_fallback (imgW imgH : ℤ) (fp : Bool)
    (o : ProcOptions) (sizeOf : ℚ → ℕ)
    (h : (o.resizeMode = ResizeMode.width ∧ otruthy o.targetWidth = false)
       ∨ (o.resizeMode = ResizeMode.height ∧ otruthy o.targetHeight = false)
       ∨ ((o.resizeMode = ResizeMode.bothFit ∨ o.resizeMode = ResizeMode.bothForce)
            ∧ (otruthy o.targetWidth = false ∨ otruthy o.targetHeight = false))) :
    process imgW imgH fp o sizeOf
      = process imgW imgH fp (setResizeMode ResizeMode.none o) sizeOf := by
  have hg : computeGeometry imgW imgH o.orientation o.manualRotation
        o.resizeMode o.targetWidth o.targetHeight
      = computeGeometry imgW imgH o.orientation o.manualRotation
        ResizeMode.none o.targetWidth o.targetHeight :=
    computeGeometry_falsy_target imgW imgH o.orientation o.manualRotation
      o.resizeMode o.targetWidth o.targetHeight h
  unfold process
  simp only [setResizeMode]
  rw [hg]

/-- C5 (counterexample): a call with resize mode width and a null target
width does not fail with an InvalidResizeTarget error before rendering:
it runs to completion and returns a successfully encoded result (one
encode at quality 0.95) at the upright 4000 by 3000 dimensions. -/
theorem missing_target_returns_success :
    process 4000 3000 false
        { orientation := 1, manualRotation := 0, resizeMode := ResizeMode.width,
          targetWidth := Option.none, targetHeight := Option.none,
          maxSizeBytes := Option.none, exportFormat := Fmt.auto } (fun _ : ℚ => 0)
      = { finalW := 4000, finalH := 3000, totalDeg := 0, scaleX := 1, scaleY := 1,
          isPng := false, encodeCalls := [19/20], resultQuality := 19/20 } := by
  norm_num [process, computeGeometry, uprightDims, exifDeg, otruthy, jround,
    Int.floor_eq_iff, encodePhase, ntruthy, resolveMimeIsPng, ProcResult.mk.injEq]

/-- C5 (witness): the silent fallback applied to a concrete call with
resize mode width and a null target width. -/
theorem process_missing_target_silent_fallback_witness :
    ((widthNullOpts.resizeMode = ResizeMode.width ∧
        otruthy widthNullOpts.targetWidth = false)
      ∨ (widthNullOpts.resizeMode = ResizeMode.height ∧
          otruthy widthNullOpts.targetHeight = false)
      ∨ ((widthNullOpts.resizeMode = ResizeMode.bothFit ∨
            widthNullOpts.resizeMode = ResizeMode.bothForce)
          ∧ (otruthy widthNullOpts.targetWidth = false ∨
              otruthy widthNullOpts.targetHeight = false))) ∧
    process 4000 3000 false widthNullOpts (fun _ : ℚ => 7)
      = process 4000 3000 false (setResizeMode ResizeMode.none widthNullOpts)
          (fun _ : ℚ => 7) :=
  ⟨Or.inl ⟨rfl, rfl⟩,
    process_missing_target_silent_fallback 4000 3000 false widthNullOpts (fun _ : ℚ => 7)
      (Or.inl ⟨rfl, rfl⟩)⟩

/-- Once the race has accepted a value, every later completion is a
no-op: folding further events leaves the state unchanged. -/
theorem foldl_safeResolve_accepted (es : List ExifEvent) (s : RaceState)
    (h : s.accepted = true) :
    es.foldl (fun s e => safeResolve (callbackValue e) s) s = s := by
  induction es generalizing s with
  | nil => rfl
  | cons e rest ih =>
      rw [List.foldl_cons]
      have hstep : safeResolve (callbackValue e) s = s := by
        unfold safeResolve
        rw [if_pos h]
      rw [hstep]
      exact ih s h

/-- C9: the orientation read resolves exactly once and never rejects: for
any nonempty sequence of completion events (parse success, parse failure,
timeout) the first event determines the resolved value and all later
completions are no-ops; a parse completing first with a valid 1-8 tag
resolves to that tag, while a missing tag, a thrown parse or the timeout
resolve to the default 1; the time bound is 1500 ms, on the order of 1-2
seconds. -/
theorem getOrientation_first_result_wins (e : ExifEvent) (rest : List ExifEvent) :
    (runEvents (e :: rest)).accepted = true ∧
    (runEvents (e :: rest)).result = Option.some (callbackValue e) ∧
    (∀ extra : List ExifEvent, runEvents ((e :: rest) ++ extra) = runEvents (e :: rest)) ∧
    (∀ t : ℕ, 1 ≤ t → t ≤ 8 → callbackValue (ExifEvent.parsed (Option.some t)) = t) ∧
    callbackValue (ExifEvent.parsed Option.none) = 1 ∧
    callbackValue ExifEvent.threw = 1 ∧
    callbackValue ExifEvent.timeout = 1 ∧
    1000 ≤ exifTimeoutMs ∧ exifTimeoutMs ≤ 2000 := by
  have hfirst : runEvents (e :: rest)
      = { accepted := true, result := Option.some (callbackValue e) } := by
    unfold runEvents
    rw [List.foldl_cons]
    have hstep : safeResolve (callbackValue e) { accepted := false, result := Option.none }
        = { accepted := true, result := Option.some (callbackValue e) } := by
      unfold safeResolve
      rw [if_neg]
      simp
    rw [hstep]
    exact foldl_safeResolve_accepted rest _ rfl
  refine ⟨by rw [hfirst], by rw [hfirst], ?_, ?_, rfl, rfl, rfl, by decide, by decide⟩
  · intro extra
    unfold runEvents
    rw [List.foldl_append]
    have h1 : (e :: rest).foldl (fun s e => safeResolve (callbackValue e) s)
        { accepted := false, result := Option.none }
          = { accepted := true, result := Option.some (callbackValue e) } := hfirst
    rw [h1]
    exact foldl_safeResolve_accepted extra _ rfl
  · intro t h1 _
    have ht : t ≠ 0 := by omega
    simp [callbackValue, ht]

/-- C9 (witness): a parse completing first with tag 6 followed by the
timeout firing resolves to 6, once. -/
theorem getOrientation_first_result_wins_witness :
    (runEvents (ExifEvent.parsed (Option.some 6) :: [ExifEvent.timeout])).accepted = true ∧
    (runEvents (ExifEvent.parsed (Option.some 6) :: [ExifEvent.timeout])).result
      = Option.some (callbackValue (ExifEvent.parsed (Option.some 6))) ∧
    (∀ extra : List ExifEvent,
      runEvents ((ExifEvent.parsed (Option.some 6) :: [ExifEvent.timeout]) ++ extra)
        = runEvents (ExifEvent.parsed (Option.some 6) :: [ExifEvent.timeout])) ∧
    (∀ t : ℕ, 1 ≤ t → t ≤ 8 → callbackValue (ExifEvent.parsed (Option.some t)) = t) ∧
    callbackValue (ExifEvent.parsed Option.none) = 1 ∧
    callbackValue ExifEvent.threw = 1 ∧
    callbackValue ExifEvent.timeout = 1 ∧
    1000 ≤ exifTimeoutMs ∧ exifTimeoutMs ≤ 2000 :=
  getOrientation_first_result_wins (ExifEvent.parsed (Option.some 6)) [ExifEvent.timeout]

/-- Orientation values other than 3, 6 and 8 map to rotation 0. -/
theorem exifDeg_default (o : ℤ) (h3 : o ≠ 3) (h6 : o ≠ 6) (h8 : o ≠ 8) :
    exifDeg o = 0 := by
  unfold exifDeg
  rw [if_neg h3, if_neg h6, if_neg h8]

/-- An orientation outside 3, 5, 6, 7, 8 leaves the whole geometry
computation identical to orientation 1. -/
theorem computeGeometry_orientation_default (o : ℤ)
    (h : o ≠ 3 ∧ o ≠ 5 ∧ o ≠ 6 ∧ o ≠ 7 ∧ o ≠ 8)
    (imgW imgH m : ℤ) (mode : ResizeMode) (tw th : Option ℤ) :
    computeGeometry imgW imgH o m mode tw th
      = computeGeometry imgW imgH 1 m mode tw th := by
  obtain ⟨h3, h5, h6, h7, h8⟩ := h
  have ho : ¬(5 ≤ o ∧ o ≤ 8) := by omega
  have ho1 : ¬((5 : ℤ) ≤ 1 ∧ (1 : ℤ) ≤ 8) := by omega
  unfold computeGeometry uprightDims
  rw [exifDeg_default o h3 h6 h8, exifDeg_default 1 (by decide) (by decide) (by decide),
    if_neg ho, if_neg ho1, if_neg ho, if_neg ho1]

/-- C10: for every source and options, when the orientation value is not
3, 5, 6, 7 or 8 — including unvalidated out-of-range values such as 0, 9
or 99 — process returns exactly the same result as the identical call
with orientation 1; in particular the mirrored codes 2 and 4 behave like
code 1 (rotation 0, no dimension swap, mirror flip dropped). -/
theorem process_orientation_like_code1 (o : ℤ)
    (h : o ≠ 3 ∧ o ≠ 5 ∧ o ≠ 6 ∧ o ≠ 7 ∧ o ≠ 8)
    (imgW imgH : ℤ) (fp : Bool) (opts : ProcOptions) (sizeOf : ℚ → ℕ) :
    process imgW imgH fp (setOrientation o opts) sizeOf
      = process imgW imgH fp (setOrientation 1 opts) sizeOf := by
  unfold process
  simp only [setOrientation]
  rw [computeGeometry_orientation_default o h]

/-- C10 (witness): orientation 99, outside the 1-8 range, processed like
orientation 1 on a concrete call. -/
theorem process_orientation_like_code1_witness :
    ((99 : ℤ) ≠ 3 ∧ (99 : ℤ) ≠ 5 ∧ (99 : ℤ) ≠ 6 ∧ (99 : ℤ) ≠ 7 ∧ (99 : ℤ) ≠ 8) ∧
    process 4000 3000 false (setOrientation 99 widthNullOpts) (fun _ : ℚ => 3)
      = process 4000 3000 false (setOrientation 1 widthNullOpts) (fun _ : ℚ => 3) :=
  ⟨by decide,
    process_orientation_like_code1 99 (by decide) 4000 3000 false widthNullOpts
      (fun _ : ℚ => 3)⟩
